import Mathlib

/-!
# Row lookup by identifier (`form_row_retrieval_fun.js`)

A shallow embedding of `doGet` and `getRowByIdAsJson` together with the
ECMAScript built-ins they rely on (`parseInt`, `isNaN`, `==`, property
assignment, `JSON.stringify`, `JSON.parse`).

Modelling conventions.
* Strings are Lean strings (sequences of code points).
* Numbers are modelled by exact integers; results of string-to-number
  conversion are exact decimals `mant * 10 ^ exp10`.  Rounding to binary
  doubles and the exponent notation that `Number::toString` uses from
  `1e21` upwards are not modelled.
* A sheet cell is a string, an integer number or a boolean (what
  `Range.getValues` yields, `Date` objects and fractional numbers left out).
* `Logger.log` calls have no influence on results and are not modelled; the
  access to the spreadsheet is made explicit through `World`.
-/

namespace TelegramChatBot

/-! ## Values -/

/-- The JavaScript values that occur while a request is served. -/
inductive JSValue where
  | undefined
  | bool (b : Bool)
  | num (n : Int)
  | str (s : String)
  deriving DecidableEq, Repr

/-- A value stored in a sheet cell, as returned by `getValues()`. -/
inductive Cell where
  | bool (b : Bool)
  | num (n : Int)
  | str (s : String)
  deriving DecidableEq, Repr

/-- The JavaScript value of a cell. -/
def Cell.toValue : Cell → JSValue
  | .bool b => .bool b
  | .num n => .num n
  | .str s => .str s

/-- A row of the sheet. -/
abbrev Row := List Cell

/-- The two-dimensional array returned by `getValues()`. -/
abbrev Grid := List Row

/-- Array indexing `row[j]`: `undefined` outside the bounds. -/
def Row.at (row : Row) (j : Nat) : JSValue :=
  match row.get? j with
  | some c => c.toValue
  | none => .undefined

/-- The result of converting a string to a number: `NaN`, an infinity, or
the exact decimal `mant * 10 ^ exp10`. -/
inductive JSNumber where
  | nan
  | infinity (negative : Bool)
  | finite (mant : Int) (exp10 : Int)
  deriving DecidableEq, Repr

/-- Numeric equality of a converted number with the integer `n`. -/
def JSNumber.eqInt : JSNumber → Int → Bool
  | .nan, _ => false
  | .infinity _, _ => false
  | .finite m e, n =>
    if 0 ≤ e then decide (m * 10 ^ e.toNat = n)
    else decide (m = n * 10 ^ (-e).toNat)

/-! ## Lexical helpers -/

/-- ECMAScript `WhiteSpace` and `LineTerminator` code points. -/
def isStrWhiteSpaceChar (c : Char) : Bool :=
  c.toNat ∈ [0x09, 0x0A, 0x0B, 0x0C, 0x0D, 0x20, 0xA0, 0x1680,
    0x2000, 0x2001, 0x2002, 0x2003, 0x2004, 0x2005, 0x2006, 0x2007,
    0x2008, 0x2009, 0x200A, 0x2028, 0x2029, 0x202F, 0x205F, 0x3000, 0xFEFF]

/-- The characters `0` to `9`. -/
def isDecimalDigit (c : Char) : Bool :=
  decide (48 ≤ c.toNat) && decide (c.toNat ≤ 57)

/-- The value of a digit in a radix up to 16, if the character is one. -/
def hexDigitValue (c : Char) : Option Nat :=
  if 48 ≤ c.toNat ∧ c.toNat ≤ 57 then some (c.toNat - 48)
  else if 97 ≤ c.toNat ∧ c.toNat ≤ 102 then some (c.toNat - 87)
  else if 65 ≤ c.toNat ∧ c.toNat ≤ 70 then some (c.toNat - 55)
  else none

/-- The mathematical value of a sequence of decimal digits. -/
def digitsValue (ds : List Char) : Nat :=
  ds.foldl (fun acc c => 10 * acc + (c.toNat - 48)) 0

/-- The value of a non-empty sequence of digits of the given radix;
`none` when the sequence is empty or holds another character. -/
def radixValue (radix : Nat) (ds : List Char) : Option Nat :=
  if ds.isEmpty then none
  else ds.foldl (fun acc c =>
    match acc, hexDigitValue c with
    | some a, some d => if d < radix then some (radix * a + d) else none
    | _, _ => none) (some 0)

/-- Strip leading white space. -/
def trimStart (cs : List Char) : List Char :=
  cs.dropWhile isStrWhiteSpaceChar

/-- Strip trailing white space. -/
def trimEnd (cs : List Char) : List Char :=
  (cs.reverse.dropWhile isStrWhiteSpaceChar).reverse

/-! ## `parseInt(string, 10)` -/

/-- The built-in `parseInt(s, 10)`: skip leading white space, read an optional
sign, then the longest run of decimal digits; `none` stands for `NaN`, so
that `isNaN` of the result is the test for `none`. -/
def parseInt (s : String) : Option Int :=
  let t := trimStart s.data
  let negative := match t with
    | '-' :: _ => true
    | _ => false
  let body := match t with
    | '-' :: r => r
    | '+' :: r => r
    | _ => t
  let z := body.takeWhile isDecimalDigit
  if z.isEmpty then none
  else if negative then some (-(digitsValue z : Int))
  else some (digitsValue z : Int)

/-! ## String to number conversion and loose equality -/

/-- Negation of a converted number. -/
def JSNumber.neg : JSNumber → JSNumber
  | .nan => .nan
  | .infinity b => .infinity (!b)
  | .finite m e => .finite (-m) e

/-- The optional `ExponentPart` of a decimal literal, which must reach the end
of the text: its value, or `none` when the text is not an exponent part. -/
def exponentPart (cs : List Char) : Option Int :=
  match cs with
  | [] => some 0
  | c :: r =>
    if c = 'e' ∨ c = 'E' then
      let negative := match r with
        | '-' :: _ => true
        | _ => false
      let ds := match r with
        | '-' :: d => d
        | '+' :: d => d
        | _ => r
      if ds.isEmpty || !ds.all isDecimalDigit then none
      else if negative then some (-(digitsValue ds : Int))
      else some (digitsValue ds : Int)
    else none

/-- The grammar `StrUnsignedDecimalLiteral`: `Infinity`, or digits with an
optional fraction and exponent. -/
def strUnsignedDecimalLiteral (cs : List Char) : JSNumber :=
  if cs = "Infinity".data then .infinity false
  else
    let ip := cs.takeWhile isDecimalDigit
    let r1 := cs.dropWhile isDecimalDigit
    let fp := match r1 with
      | '.' :: r => r.takeWhile isDecimalDigit
      | _ => []
    let r2 := match r1 with
      | '.' :: r => r.dropWhile isDecimalDigit
      | _ => r1
    if ip.isEmpty && fp.isEmpty then .nan
    else match exponentPart r2 with
      | none => .nan
      | some e => .finite (digitsValue (ip ++ fp) : Int) (e - (fp.length : Int))

/-- The grammar `StrNumericLiteral` on white-space-trimmed text. -/
def strNumericLiteral (cs : List Char) : JSNumber :=
  match cs with
  | [] => .finite 0 0
  | '0' :: 'x' :: ds | '0' :: 'X' :: ds =>
    match radixValue 16 ds with
    | some v => .finite (v : Int) 0
    | none => .nan
  | '0' :: 'o' :: ds | '0' :: 'O' :: ds =>
    match radixValue 8 ds with
    | some v => .finite (v : Int) 0
    | none => .nan
  | '0' :: 'b' :: ds | '0' :: 'B' :: ds =>
    match radixValue 2 ds with
    | some v => .finite (v : Int) 0
    | none => .nan
  | '-' :: r => (strUnsignedDecimalLiteral r).neg
  | '+' :: r => strUnsignedDecimalLiteral r
  | _ => strUnsignedDecimalLiteral cs

/-- The abstract operation `StringToNumber`. -/
def stringToNumber (s : String) : JSNumber :=
  strNumericLiteral (trimEnd (trimStart s.data))

/-- The abstract operation `ToNumber` on the values of the model. -/
def toNumber : JSValue → JSNumber
  | .undefined => .nan
  | .bool true => .finite 1 0
  | .bool false => .finite 0 0
  | .num n => .finite n 0
  | .str s => stringToNumber s

/-- The comparison `x == n` (`IsLooselyEqual`) of a value with a number:
numbers compare by value, strings and booleans are converted to a number
first, `undefined` equals no number. -/
def looseEq (x : JSValue) (n : Int) : Bool :=
  match x with
  | .undefined => false
  | .num m => decide (m = n)
  | .bool b => (toNumber (.bool b)).eqInt n
  | .str s => (stringToNumber s).eqInt n

/-- The abstract operation `ToString`, which also gives the property key of a
value (`ToPropertyKey`). -/
def toPropertyKey : JSValue → String
  | .undefined => "undefined"
  | .bool true => "true"
  | .bool false => "false"
  | .num n => toString n
  | .str s => s

/-! ## Ordinary objects and `JSON.stringify` -/

/-- An ordinary object created by `{}`: its own data properties, in creation
order. -/
abbrev JSObject := List (String × JSValue)

/-- The abstract operation `CreateDataProperty`: an existing own property gets
the new value and keeps its position, a new one is appended. -/
def defineProp : JSObject → String → JSValue → JSObject
  | [], k, v => [(k, v)]
  | e :: t, k, v => if e.1 = k then (k, v) :: t else e :: defineProp t k v

/-- The assignment `o[k] = v` of a primitive value.  The key `__proto__` reaches
the inherited accessor of `Object.prototype`, which ignores primitive values,
so no own property is created; any other key names an own data property,
which is created or updated. -/
def setProp (o : JSObject) (k : String) (v : JSValue) : JSObject :=
  if k = "__proto__" then o else defineProp o k v

/-- Whether a property key is an array index: the canonical decimal text of
an integer from `0` to `2 ^ 32 - 2`. -/
def isArrayIndex (k : String) : Bool :=
  !k.data.isEmpty && k.data.all isDecimalDigit
    && (decide (k.data.length = 1) || !(k.data.head? == some '0'))
    && decide (digitsValue k.data < 2 ^ 32 - 1)

/-- The own properties in enumeration order (`OrdinaryOwnPropertyKeys`): array
indices in ascending numeric order, then the other keys in creation order. -/
def ownEntries (o : JSObject) : List (String × JSValue) :=
  (o.filter (fun e => isArrayIndex e.1)).insertionSort
      (fun a b => digitsValue a.1.data ≤ digitsValue b.1.data)
    ++ o.filter (fun e => !isArrayIndex e.1)

/-- The quotation mark. -/
def dquote : Char := Char.ofNat 34

/-- The reverse solidus. -/
def backslash : Char := Char.ofNat 92

/-- The text `JSON.stringify` emits for one code point inside a string
(`QuoteJSONString`). -/
def quoteJSONChar (c : Char) : List Char :=
  if c.toNat = 8 then [backslash, 'b']
  else if c.toNat = 9 then [backslash, 't']
  else if c.toNat = 10 then [backslash, 'n']
  else if c.toNat = 12 then [backslash, 'f']
  else if c.toNat = 13 then [backslash, 'r']
  else if c = dquote then [backslash, dquote]
  else if c = backslash then [backslash, backslash]
  else if c.toNat < 32 then
    [backslash, 'u', '0', '0', Nat.digitChar (c.toNat / 16), Nat.digitChar (c.toNat % 16)]
  else [c]

/-- The abstract operation `QuoteJSONString`. -/
def quoteJSONString (s : String) : List Char :=
  dquote :: (s.data.flatMap quoteJSONChar ++ [dquote])

/-- The JSON text of a property value other than `undefined`
(`SerializeJSONProperty`). -/
def serializeJSONValue : JSValue → List Char
  | .undefined => []
  | .bool true => "true".data
  | .bool false => "false".data
  | .num n => (toString n).data
  | .str s => quoteJSONString s

/-- The JSON text of one member, `"key":value`. -/
def serializeMember (e : String × JSValue) : List Char :=
  quoteJSONString e.1 ++ ':' :: serializeJSONValue e.2

/-- The entries that are serialised: those whose value is not `undefined`. -/
def definedEntries (es : List (String × JSValue)) : List (String × JSValue) :=
  es.filter (fun e => e.2 != .undefined)

/-- The JSON text of a sequence of entries: those whose value is
`undefined` are left out, the others are separated by commas and enclosed
in braces (`SerializeJSONObject` without indentation). -/
def serializeEntries (es : List (String × JSValue)) : String :=
  String.mk ("\x7b".data
    ++ [','].intercalate ((definedEntries es).map serializeMember)
    ++ "\x7d".data)

/-- The built-in `JSON.stringify` on an object of the model. -/
def JSON.stringify (o : JSObject) : String :=
  serializeEntries (ownEntries o)

/-! ## The script -/

/-- The query parameters of a request: `request.parameter.id` is a string,
or `undefined` (here `none`) when the parameter is absent. -/
structure Request where
  id : Option String
  deriving DecidableEq, Repr

/-- The members of `ContentService.MimeType` the script uses. -/
inductive MimeType where
  | TEXT
  | JSON
  deriving DecidableEq, Repr

/-- A `TextOutput`: the text handed to `createTextOutput` and the MIME type
set on it. -/
structure Response where
  content : String
  mimeType : MimeType
  deriving DecidableEq, Repr

/-- The hosting environment: `sheet` is what reading the data range of the
first sheet of the active spreadsheet yields, the grid of values or the
description of the exception thrown on the way; `reads` counts the reads
made so far. -/
structure World where
  sheet : Except String Grid
  reads : Nat

/-- The inner loop of `getRowByIdAsJson`: `jsonObject[headers[j]] = row[j]`
for `j` from `0` to `headers.length - 1`, starting from `{}`. -/
def buildRecord (headers row : Row) : JSObject :=
  (List.range headers.length).foldl
    (fun o j => setProp o (toPropertyKey (headers.at j)) (row.at j)) []

/-- The outer loop of `getRowByIdAsJson` over the rows after the header row:
the first row whose cell at `idColumnIndex = 1` loosely equals `idToFind`
is turned into a record and serialised; `none` is the `null` returned
when the loop ends without a match. -/
def scanRows (headers : Row) (idToFind : Int) : List Row → Option String
  | [] => none
  | row :: rest =>
    if looseEq (row.at 1) idToFind then some (JSON.stringify (buildRecord headers row))
    else scanRows headers idToFind rest

/-- The function `getRowByIdAsJson`: read the grid (an exception propagates
to the caller), take `values[0]` as headers and scan `values[1..]`.  With an
empty grid `headers` is `undefined` but the loop body is never entered. -/
def getRowByIdAsJson (w : World) (idToFind : Int) : Except String (Option String) × World :=
  let w1 : World := ⟨w.sheet, w.reads + 1⟩
  match w.sheet with
  | .error e => (.error e, w1)
  | .ok values => (.ok (scanRows (values.headD []) idToFind (values.drop 1)), w1)

/-- The function `doGet`.  The checks follow the source in order: `!idToFind`
holds for `undefined` and for the empty string; `parseInt(idToFind, 10)` and
`isNaN`; the lookup; the truthiness test of its result (`null` and the empty
string are falsy); the `catch` clause turns an exception `e` into the text
`"Error: " + e`. -/
def doGet (w : World) (request : Request) : Response × World :=
  match request.id with
  | none => (⟨"Bad Request: Missing ID", .TEXT⟩, w)
  | some idText =>
    if idText = "" then (⟨"Bad Request: Missing ID", .TEXT⟩, w)
    else
      match parseInt idText with
      | none => (⟨"Bad Request: Invalid ID (not a number)", .TEXT⟩, w)
      | some idToFind =>
        match getRowByIdAsJson w idToFind with
        | (.error e, w1) => (⟨"Error: " ++ e, .TEXT⟩, w1)
        | (.ok (some jsonOutput), w1) =>
          if jsonOutput = "" then (⟨"Not Found: ID not found in the sheet", .TEXT⟩, w1)
          else (⟨jsonOutput, .JSON⟩, w1)
        | (.ok none, w1) => (⟨"Not Found: ID not found in the sheet", .TEXT⟩, w1)

/-! ## `JSON.parse` on flat objects

`JSON.parse` is used by `testGetRowByIdAsJson` to read the serialised record
back.  The model covers the JSON texts that denote an object whose members are
strings, integers without fraction or exponent, `true` or `false`; every other
text, valid JSON or not, yields `none`. -/

/-- The five kinds of response listed for the entry point. -/
inductive ResponseShape where
  | missingId
  | invalidId
  | notFound
  | error
  | record
  deriving DecidableEq, Repr

/-- What it means for a response to have one of the five shapes. -/
def hasShape (r : Response) : ResponseShape → Prop
  | .missingId => r = ⟨"Bad Request: Missing ID", .TEXT⟩
  | .invalidId => r = ⟨"Bad Request: Invalid ID (not a number)", .TEXT⟩
  | .notFound => r = ⟨"Not Found: ID not found in the sheet", .TEXT⟩
  | .error => r.mimeType = .TEXT ∧ ∃ e : String, r.content = "Error: " ++ e
  | .record => r.mimeType = .JSON ∧
      ∃ headers row : Row, r.content = JSON.stringify (buildRecord headers row)

/-! ## The record as the specification describes it -/

/-- The text produced by `JSON.stringify` is never the empty string. -/
theorem stringify_ne_empty (o : JSObject) : JSON.stringify o ≠ "" := by
  intro h
  have := congrArg String.data h
  simp [JSON.stringify, serializeEntries] at this

/-- A text that does not start with `E` is not an error message. -/
theorem error_text_ne (e : String) (t : String) (c : Char) (cs : List Char)
    (ht : t.data = c :: cs) (hc : c ≠ 'E') : t ≠ "Error: " ++ e := by
  intro h
  have := congrArg String.data h
  rw [ht] at this
  simp [String.data_append] at this
  exact hc this.1

/-! ## Request validation -/

/-- C2: a request whose `id` is absent or empty is answered with the plain text
"Bad Request: Missing ID" whatever the dataset is, readable or not; the
world is returned unchanged (no read is made), so any two worlds give the
same response. -/
theorem doGet_missing_id (w : World) (request : Request)
    (h : request.id = none ∨ request.id = some "") :
    doGet w request = (⟨"Bad Request: Missing ID", .TEXT⟩, w)
      ∧ (doGet w request).2.reads = w.reads
      ∧ ∀ w2 : World, (doGet w2 request).1 = (doGet w request).1 := by
  have key : ∀ v : World, doGet v request = (⟨"Bad Request: Missing ID", .TEXT⟩, v) := by
    intro v
    rcases h with h | h <;> simp [doGet, h]
  refine ⟨key w, ?_, ?_⟩
  · rw [key w]
  · intro w2
    rw [key w2, key w]

/-- Witness for C2: an empty `id` against a spreadsheet that cannot be read. -/
theorem doGet_missing_id_witness :
    doGet ⟨.error "Service unavailable", 0⟩ ⟨some ""⟩
        = (⟨"Bad Request: Missing ID", .TEXT⟩, ⟨.error "Service unavailable", 0⟩)
      ∧ (doGet ⟨.error "Service unavailable", 0⟩ ⟨some ""⟩).2.reads = 0
      ∧ ∀ w2 : World, (doGet w2 ⟨some ""⟩).1
          = (doGet ⟨.error "Service unavailable", 0⟩ ⟨some ""⟩).1 :=
  doGet_missing_id ⟨.error "Service unavailable", 0⟩ ⟨some ""⟩ (Or.inr rfl)

/-- C1 as stated fails: the empty string does not parse as an integer
(`parseInt` gives `NaN`), yet the response to it is "Bad Request: Missing ID",
which is not the invalid-id text. -/
theorem doGet_invalid_id_counterexample :
    parseInt "" = none
      ∧ (doGet ⟨.ok [], 0⟩ ⟨some ""⟩).1 = ⟨"Bad Request: Missing ID", .TEXT⟩
      ∧ (doGet ⟨.ok [], 0⟩ ⟨some ""⟩).1
          ≠ ⟨"Bad Request: Invalid ID (not a number)", .TEXT⟩ := by
  decide

/-- C1 amended: for every dataset and every non-empty `id` for which
`parseInt(id, 10)` is `NaN`, the response is exactly
"Bad Request: Invalid ID (not a number)", and no read is made. -/
theorem doGet_invalid_id (w : World) (idText : String)
    (hne : idText ≠ "") (hnan : parseInt idText = none) :
    doGet w ⟨some idText⟩ = (⟨"Bad Request: Invalid ID (not a number)", .TEXT⟩, w) := by
  simp [doGet, hne, hnan]

/-- Witness for C1 amended: the id `abc`. -/
theorem doGet_invalid_id_witness :
    doGet ⟨.ok [], 0⟩ ⟨some "abc"⟩
      = (⟨"Bad Request: Invalid ID (not a number)", .TEXT⟩, ⟨.ok [], 0⟩) :=
  doGet_invalid_id ⟨.ok [], 0⟩ "abc" (by decide) (by decide)

/-! ## The response after validation -/

/-- What `parseInt(s, 10)` yields on the three example ids of the
specification: `12.5x` parses to `12`. -/
theorem parseInt_examples :
    parseInt "abc" = none ∧ parseInt "12.5x" = some 12 ∧ parseInt "" = none := by
  decide

/-- The response of `doGet` once the id has passed validation, in terms of the
outcome of the read and of the scan. -/
theorem doGet_valid (w : World) (idText : String) (n : Int)
    (hne : idText ≠ "") (hn : parseInt idText = some n) :
    (doGet w ⟨some idText⟩).1 =
      match w.sheet with
      | .error e => ⟨"Error: " ++ e, .TEXT⟩
      | .ok values =>
        match scanRows (values.headD []) n (values.drop 1) with
        | some jsonOutput =>
          if jsonOutput = "" then ⟨"Not Found: ID not found in the sheet", .TEXT⟩
          else ⟨jsonOutput, .JSON⟩
        | none => ⟨"Not Found: ID not found in the sheet", .TEXT⟩ := by
  simp only [doGet, hne, hn, getRowByIdAsJson, if_false]
  cases hs : w.sheet with
  | error e => rfl
  | ok values =>
    simp only []
    cases hscan : scanRows (values.headD []) n (values.drop 1) with
    | none => rfl
    | some j =>
      simp only []
      by_cases hj : j = "" <;> simp [hj]

/-- The scan either ends with `null` or returns the serialisation of the
record of one of the rows. -/
theorem scanRows_cases (headers : Row) (n : Int) (rows : List Row) :
    scanRows headers n rows = none ∨
      ∃ row ∈ rows, scanRows headers n rows = some (JSON.stringify (buildRecord headers row)) := by
  induction rows with
  | nil => exact Or.inl rfl
  | cons r rest ih =>
    by_cases hr : looseEq (r.at 1) n = true
    · exact Or.inr ⟨r, List.mem_cons_self _ _, by simp [scanRows, hr]⟩
    · have hr2 : looseEq (r.at 1) n = false := by simpa using hr
      rcases ih with h | ⟨row, hmem, h⟩
      · exact Or.inl (by simp [scanRows, hr2, h])
      · exact Or.inr ⟨row, List.mem_cons_of_mem _ hmem, by simp [scanRows, hr2, h]⟩

/-! ## Failures and response shapes -/

/-- A response has at most one of the five shapes. -/
theorem hasShape_unique (r : Response) (a b : ResponseShape)
    (ha : hasShape r a) (hb : hasShape r b) : a = b := by
  have e1 : ∀ e : String, "Bad Request: Missing ID" ≠ "Error: " ++ e :=
    fun e => error_text_ne e _ 'B' _ rfl (by decide)
  have e2 : ∀ e : String, "Bad Request: Invalid ID (not a number)" ≠ "Error: " ++ e :=
    fun e => error_text_ne e _ 'B' _ rfl (by decide)
  have e3 : ∀ e : String, "Not Found: ID not found in the sheet" ≠ "Error: " ++ e :=
    fun e => error_text_ne e _ 'N' _ rfl (by decide)
  cases a <;> cases b <;> first
    | rfl
    | (exfalso
       simp only [hasShape] at ha hb
       first
         | (rw [ha] at hb; revert hb; decide)
         | (obtain ⟨_, e, he⟩ := hb; rw [ha] at he; first | exact e1 e he | exact e2 e he | exact e3 e he)
         | (obtain ⟨_, e, he⟩ := ha; rw [hb] at he; first | exact e1 e he | exact e2 e he | exact e3 e he)
         | (obtain ⟨hm, _⟩ := hb; rw [ha] at hm; revert hm; decide)
         | (obtain ⟨hm, _⟩ := ha; rw [hb] at hm; revert hm; decide)
         | (obtain ⟨hm, _⟩ := ha; obtain ⟨hm2, _⟩ := hb; rw [hm] at hm2; revert hm2; decide))

/-- Every response of `doGet` has one of the five shapes. -/
theorem doGet_hasShape (w : World) (request : Request) :
    ∃ sh : ResponseShape, hasShape (doGet w request).1 sh := by
  cases hid : request.id with
  | none => exact ⟨.missingId, by simp [doGet, hid, hasShape]⟩
  | some idText =>
    by_cases hne : idText = ""
    · exact ⟨.missingId, by simp [doGet, hid, hne, hasShape]⟩
    · cases hn : parseInt idText with
      | none => exact ⟨.invalidId, by simp [doGet, hid, hne, hn, hasShape]⟩
      | some n =>
        have hreq : request = ⟨some idText⟩ := by
          cases request; simp_all
        rw [hreq, doGet_valid w idText n hne hn]
        cases hs : w.sheet with
        | error e => exact ⟨.error, by simp [hasShape]⟩
        | ok values =>
          rcases scanRows_cases (values.headD []) n (values.drop 1) with h | ⟨row, _, h⟩
          · exact ⟨.notFound, by simp only [h, hasShape]⟩
          · refine ⟨.record, ?_⟩
            simp only [h, stringify_ne_empty, if_false, hasShape]
            exact ⟨trivial, _, row, rfl⟩

/-- C8: `doGet` always returns a response.  When the id is non-empty and parses
to an integer and the lookup fails with description `e`, the response is the
plain text `"Error: " ++ e`; and every response has exactly one of the five
shapes. -/
theorem doGet_never_throws (w : World) (request : Request) :
    (∀ (idText : String) (n : Int) (e : String), request.id = some idText → idText ≠ "" →
        parseInt idText = some n → (getRowByIdAsJson w n).1 = .error e →
        (doGet w request).1 = ⟨"Error: " ++ e, .TEXT⟩)
      ∧ ∃! sh : ResponseShape, hasShape (doGet w request).1 sh := by
  constructor
  · intro idText n e hid hne hn herr
    have hreq : request = ⟨some idText⟩ := by
      cases request; simp_all
    rw [hreq, doGet_valid w idText n hne hn]
    cases hs : w.sheet with
    | error e2 =>
      simp only [getRowByIdAsJson, hs] at herr
      cases herr
      rfl
    | ok values => simp [getRowByIdAsJson, hs] at herr
  · obtain ⟨sh, hsh⟩ := doGet_hasShape w request
    exact ⟨sh, hsh, fun y hy => hasShape_unique _ y sh hy hsh⟩

/-- Witness for C8: an unreadable spreadsheet and the id `42`. -/
theorem doGet_never_throws_witness :
    (doGet ⟨.error "Exception: Service error: Spreadsheets", 0⟩ ⟨some "42"⟩).1
      = ⟨"Error: Exception: Service error: Spreadsheets", .TEXT⟩ :=
  (doGet_never_throws ⟨.error "Exception: Service error: Spreadsheets", 0⟩ ⟨some "42"⟩).1
    "42" 42 "Exception: Service error: Spreadsheets" rfl (by decide) (by decide) rfl

/-! ## Not found, and the first match -/

end TelegramChatBot
